import Mathlib

set_option autoImplicit false
set_option maxRecDepth 100000

namespace BullmTool

/-- Raw cell values as exposed by the workbook accessor: empty, text, integer
number, or boolean (`openpyxl` cell values in the loaded workbook). -/
inductive Value where
  | vNone
  | vStr (s : String)
  | vInt (n : Int)
  | vBool (b : Bool)
  deriving DecidableEq

/-- A cell carries a raw value and a number-format descriptor string. -/
structure Cell where
  value : Value
  numberFormat : String
  deriving DecidableEq

/-- Cells never written read as empty with the default format. -/
def emptyCell : Cell := ⟨Value.vNone, "General"⟩

/-- A sheet: a bounded grid addressed by 1-based (row, column); cells beyond
the populated entries read as empty. -/
structure Sheet where
  maxRow : Nat
  maxCol : Nat
  cells : List (Nat × Nat × Cell)
  deriving DecidableEq

def Sheet.cell (sh : Sheet) (r c : Nat) : Cell :=
  ((sh.cells.find? (fun e => e.1 == r && e.2.1 == c)).map (fun e => e.2.2)).getD emptyCell

/-- A workbook is an ordered collection of named sheets. -/
abbrev Workbook := List (String × Sheet)

def lookupSheet (wb : Workbook) (name : String) : Option Sheet :=
  (wb.find? (fun e => e.1 == name)).map Prod.snd

def containsSheet (wb : Workbook) (name : String) : Bool :=
  (lookupSheet wb name).isSome

/-- Python `str()` rendering of a cell value. -/
def pyStr : Value → String
  | .vNone => "None"
  | .vStr s => s
  | .vInt n => toString n
  | .vBool true => "True"
  | .vBool false => "False"

/-- Python truthiness of a cell value. -/
def pyTruthy : Value → Bool
  | .vNone => false
  | .vStr s => decide (s ≠ "")
  | .vInt n => decide (n ≠ 0)
  | .vBool b => b

/-- The value if it is a string (Python `isinstance(v, str)`). -/
def strValue? : Value → Option String
  | .vStr s => some s
  | _ => none

/-- A truthy string value: Python `cell.value and isinstance(cell.value, str)`. -/
def truthyStr? : Value → Option String
  | .vStr s => if s = "" then none else some s
  | _ => none

/-- `pat` occurs as a contiguous run in the character list (Python `pat in s`). -/
def charsInfix (pat : List Char) : List Char → Bool
  | [] => pat.isEmpty
  | c :: rest => pat.isPrefixOf (c :: rest) || charsInfix pat rest

/-- Python substring test `pat in s`. -/
def strContains (s pat : String) : Bool := charsInfix pat.toList s.toList

/-- Python `ch in s` for a single character. -/
def strContainsChar (s : String) (ch : Char) : Bool := s.toList.contains ch

/-- Python `str.isdigit` (ASCII digits): nonempty and all characters digits. -/
def pyIsDigit (s : String) : Bool := decide (s.toList ≠ []) && s.toList.all Char.isDigit

def digitsToNatAux : List Char → Nat → Nat
  | [], acc => acc
  | c :: rest, acc => digitsToNatAux rest (acc * 10 + (c.toNat - 48))

/-- Parse a string of decimal digits (Python `int(s)` after an `isdigit` check). -/
def digitsToNat (s : String) : Nat := digitsToNatAux s.toList 0

/-- Python `str.strip()`: drop leading and trailing whitespace. -/
def pyStrip (s : String) : String :=
  ⟨((s.toList.dropWhile Char.isWhitespace).reverse.dropWhile Char.isWhitespace).reverse⟩

/-- Python `str.upper()`. -/
def pyUpper (s : String) : String := ⟨s.toList.map Char.toUpper⟩

/-- Python `s.startswith(pre)`. -/
def strStartsWith (s pre : String) : Bool := pre.toList.isPrefixOf s.toList

/-- The characters of `s` after a prefix of length `n`. -/
def strDropChars (s : String) (n : Nat) : String := ⟨s.toList.drop n⟩

/-- The first `n` characters of `s` (Python `s[:n]`). -/
def strTakeChars (s : String) (n : Nat) : String := ⟨s.toList.take n⟩

def replaceCharsAux (pat repl : List Char) : Nat → List Char → List Char
  | 0, s => s
  | _ + 1, [] => []
  | fuel + 1, c :: rest =>
    if pat ≠ [] ∧ pat.isPrefixOf (c :: rest) then
      repl ++ replaceCharsAux pat repl fuel (rest.drop (pat.length - 1))
    else
      c :: replaceCharsAux pat repl fuel rest

/-- Python `s.replace(pat, repl)` for a nonempty pattern. -/
def pyReplace (s pat repl : String) : String :=
  ⟨replaceCharsAux pat.toList repl.toList s.toList.length s.toList⟩

/-- Python `sep.join(parts)`. -/
def strJoin (sep : String) : List String → String
  | [] => ""
  | [p] => p
  | p :: q :: rest => p ++ sep ++ strJoin sep (q :: rest)

/-- Mirror of the `ValidationResult` dataclass of `bom_matrix.py`. -/
structure ValidationResult where
  rule_name : String
  sheet_name : String
  status : String
  expected : String
  actual : String
  location : String
  deriving DecidableEq

def statusList (rs : List ValidationResult) : List String := rs.map (fun r => r.status)

/-- Symbols searched for inside the number format by
`_has_currency_format_or_symbol`. -/
def currencyFormatSymbols : List Char := ['$', '€', '£', '¥', '₹', '¤']

/-- Symbols searched for inside the rendered value by
`_has_currency_format_or_symbol`. -/
def currencyValueSymbols : List Char := ['$', '€', '£', '¥', '₹']

/-- First check of `_has_currency_format_or_symbol`: some symbol of the fixed
set occurs in the number format string. -/
def formatHasCurrencySymbol (c : Cell) : Bool :=
  currencyFormatSymbols.any (fun sym => strContainsChar c.numberFormat sym)

/-- Second check of `_has_currency_format_or_symbol`: some symbol of the fixed
set occurs in `str(value)`. -/
def valueHasCurrencySymbol (v : Value) : Bool :=
  currencyValueSymbols.any (fun sym => strContainsChar (pyStr v) sym)

/-- `_has_currency_format_or_symbol`: true if the (truthy) number format
contains a currency symbol, or the value is not `None` and its string
rendering contains a currency symbol. -/
def hasCurrencyFormatOrSymbol (c : Cell) : Bool :=
  if c.numberFormat ≠ "" ∧ formatHasCurrencySymbol c then true
  else if c.value ≠ Value.vNone ∧ valueHasCurrencySymbol c.value then true
  else false

def emptySheet : Sheet := ⟨0, 0, []⟩

/-- A truthy string value containing `pat` (Python
`cell.value and isinstance(cell.value, str) and pat in cell.value`). -/
def truthyStrContains (v : Value) (pat : String) : Bool :=
  match truthyStr? v with
  | some s => strContains s pat
  | none => false

/-- Search window test over rows `1..rows` and columns `1..cols`
(`iter_rows(min_row=1, max_row=rows, max_col=cols)`). -/
def windowAny (sh : Sheet) (rows cols : Nat) (p : Value → Bool) : Bool :=
  (List.range' 1 rows).any (fun r => (List.range' 1 cols).any (fun c => p (sh.cell r c).value))

/-- `_check_proto_headers_in_bom_matrix`: a missing BOM MATRIX sheet reads as
(False, False); otherwise each flag records whether some truthy string cell in
the first 30 rows and 100 columns contains the header text. -/
def checkProtoHeadersInBomMatrix (wb : Workbook) : Bool × Bool :=
  match lookupSheet wb "BOM MATRIX" with
  | none => (false, false)
  | some sh =>
    (windowAny sh 30 100 (fun v => truthyStrContains v "Proto Qty"),
     windowAny sh 30 100 (fun v => truthyStrContains v "Proto Price"))

def rule11Name : String := "Rule 11: CBOM Proto Sheet Validation"

/-- `validate_rule11_cbom_proto_sheet`. -/
def validate_rule11_cbom_proto_sheet (wb : Workbook) : List ValidationResult :=
  let flags := checkProtoHeadersInBomMatrix wb
  let protoHeadersExist := flags.1 && flags.2
  let cbomProtoExists := containsSheet wb "7.0 CBOM Proto"
  if protoHeadersExist && cbomProtoExists then
    [⟨rule11Name, "7.0 CBOM Proto", "PASS",
      "\x277.0 CBOM Proto\x27 sheet should exist when Proto headers present",
      "Proto present", ""⟩]
  else if protoHeadersExist && !cbomProtoExists then
    [⟨rule11Name, "N/A", "FAIL",
      "\x277.0 CBOM Proto\x27 sheet should exist",
      "Proto quantity present in BOM MATRIX but 7.0 CBOM Proto sheet missing", ""⟩]
  else if !protoHeadersExist && cbomProtoExists then
    [⟨rule11Name, "7.0 CBOM Proto", "FAIL",
      "\x277.0 CBOM Proto\x27 sheet should not exist without Proto headers",
      "Proto quantity does not present but 7.0 CBOM Proto present", ""⟩]
  else
    [⟨rule11Name, "N/A", "PASS",
      "No Proto headers, no Proto sheet",
      "Proto not specified, sheet correctly absent", ""⟩]

/-- Split a character list at the first occurrence of `sep`
(Python `s.split(sep, 1)` when `sep` occurs). -/
def splitFirst (sep : Char) : List Char → Option (List Char × List Char)
  | [] => none
  | c :: rest =>
    if c = sep then some ([], rest)
    else
      match splitFirst sep rest with
      | some p => some (c :: p.1, p.2)
      | none => none

/-- One row of the rule 16 section scan: a truthy string in column A whose
trimmed text splits at a dot with an all-digit prefix yields
(row, serial, label). -/
def sectionOfRow (sh : Sheet) (r : Nat) : Option (Nat × Nat × String) :=
  match truthyStr? (sh.cell r 1).value with
  | some s =>
    let v := pyStrip s
    match splitFirst '.' v.toList with
    | some p =>
      let serialStr := pyStrip ⟨p.1⟩
      if pyIsDigit serialStr then some (r, digitsToNat serialStr, pyStrip ⟨p.2⟩) else none
    | none => none
  | none => none

/-- Rule 16 section scan over rows `1..min(maxRow, 999)` of column A; the scan
visits rows in increasing order, so the later `sort(key=row)` of the source is
the identity on this list. -/
def numberedSections (sh : Sheet) : List (Nat × Nat × String) :=
  (List.range' 1 (min sh.maxRow 999)).filterMap (fun r => sectionOfRow sh r)

def sectionSerials (sh : Sheet) : List Nat :=
  (numberedSections sh).map (fun x => x.2.1)

/-- The per-position mismatch messages of rule 16. -/
def sectionMismatches (secs : List (Nat × Nat × String)) : List String :=
  secs.enum.filterMap (fun p =>
    if p.2.2.1 ≠ p.1 + 1 then
      some ("Row " ++ toString p.2.1 ++ ": Expected " ++ toString (p.1 + 1) ++
        ", Found " ++ toString p.2.2.1)
    else none)

def sectionDisplay (x : Nat × Nat × String) : String :=
  if 30 < x.2.2.toList.length then toString x.2.1 ++ ". " ++ strTakeChars x.2.2 30 ++ "..."
  else toString x.2.1 ++ ". " ++ x.2.2

def rule16Name : String := "Rule 16: Serial Number Standardization"

/-- `validate_rule16_serial_number_standardization`. -/
def validate_rule16_serial_number_standardization (wb : Workbook) : List ValidationResult :=
  match lookupSheet wb "Missing Notes" with
  | none =>
    [⟨rule16Name, "Missing Notes", "FAIL", "Sheet \x27Missing Notes\x27 should exist",
      "Sheet not found", ""⟩]
  | some sh =>
    let secs := numberedSections sh
    if secs = [] then
      [⟨rule16Name, "Missing Notes", "FAIL", "Numbered section headers should be present",
        "No numbered sections found in Missing Notes", ""⟩]
    else
      let serials := secs.map (fun x => x.2.1)
      if serials = List.range' 1 serials.length then
        let shown := strJoin ", " ((secs.take 5).map sectionDisplay)
        let sectionListStr :=
          if 5 < secs.length then shown ++ " (and " ++ toString (secs.length - 5) ++ " more)"
          else shown
        [⟨rule16Name, "Missing Notes", "PASS", "Serial numbers in sequential order (1, 2, 3...)",
          "Serial numbers are in standard format (" ++ toString secs.length ++ " sections found)",
          "Sections: " ++ sectionListStr⟩]
      else
        [⟨rule16Name, "Missing Notes", "FAIL",
          "Serial numbers should be sequential (1, 2, 3, 4...)",
          "Serial number mismatch: " ++ strJoin "; " ((sectionMismatches secs).take 3), ""⟩]

/-- Sheet-name parse for the anchored pattern `7.0 CBOM VL-(digits)`. -/
def cbomSuffix? (name : String) : Option Nat :=
  if strStartsWith name "7.0 CBOM VL-" then
    let rest := strDropChars name 12
    if pyIsDigit rest then some (digitsToNat rest) else none
  else none

/-- As `cbomSuffix?` but keeping the digit string (`match.group(1)`). -/
def cbomSuffixStr? (name : String) : Option String :=
  if strStartsWith name "7.0 CBOM VL-" then
    let rest := strDropChars name 12
    if pyIsDigit rest then some rest else none
  else none

/-- The (number, sheet name) pairs of the CBOM VL sheet family, in workbook
order (`cbom_sheets` of rules 18 and 19). -/
def cbomEntries (wb : Workbook) : List (Nat × String) :=
  wb.filterMap (fun e => (cbomSuffix? e.1).map (fun n => (n, e.1)))

/-- Python tuple maximum, as selected by `cbom_sheets.sort()` + `[-1]`. -/
def pairMax (a b : Nat × String) : Nat × String :=
  if a.1 < b.1 then b
  else if b.1 < a.1 then a
  else if a.2 < b.2 then b
  else a

/-- Resolve the last (highest-numbered) CBOM VL sheet. -/
def lastCbom (wb : Workbook) : Option (Nat × String) :=
  match cbomEntries wb with
  | [] => none
  | e :: rest => some (rest.foldl pairMax e)

def cbomMaxBound (wb : Workbook) (n : Nat) : Bool :=
  (cbomEntries wb).all (fun e => decide (e.1 ≤ n))

def rule18Name : String := "Rule 18: Part count is not matching for uncosted parts"

/-- Step 2 of rule 18: first row in `1..499` whose column A holds a truthy
string containing "Uncosted Parts", with the stripped header text. -/
def findUncostedRow (mn : Sheet) : Option (Nat × String) :=
  ((List.range' 1 499).find? (fun r => truthyStrContains (mn.cell r 1).value "Uncosted Parts")).map
    (fun r => (r, pyStrip (pyStr (mn.cell r 1).value)))

def slNoPatterns : List String := ["SL.NO", "SI.NO", "S.NO", "SLNO", "SINO"]

def isSlNoHeader (v : Value) : Bool :=
  match truthyStr? v with
  | some s => slNoPatterns.any (fun pat => strContains (pyUpper s) pat)
  | none => false

/-- Step 3 of rule 18: scan columns `1..19`, and for each the row offsets
`1..4` below the section row; the first matching column wins. Returns
(column, header row). -/
def findSlNo (mn : Sheet) (uncostedRow : Nat) : Option (Nat × Nat) :=
  (List.range' 1 19).findSome? (fun col =>
    ((List.range' 1 4).find? (fun off => isSlNoHeader (mn.cell (uncostedRow + off) col).value)).map
      (fun off => (col, uncostedRow + off)))

/-- The next-section stop test of rule 18's serial scan: a truthy string whose
strip has length > 2, starts with a digit, and whose first 4 characters
contain ". ". -/
def isNextSectionHeader (v : Value) : Bool :=
  match truthyStr? v with
  | some s =>
    let t := pyStrip s
    decide (2 < t.toList.length) &&
      (match t.toList with
       | c :: _ => c.isDigit
       | [] => false) &&
      strContains (strTakeChars t 4) ". "
  | none => false

/-- A serial value in the SI.no column: a truthy int (or bool, a Python int
subclass) converts directly, a truthy all-digit string parses. -/
def slNoValue? (v : Value) : Option Int :=
  if pyTruthy v then
    match v with
    | .vInt n => some n
    | .vBool b => some (if b then 1 else 0)
    | .vStr s => if pyIsDigit (pyStrip s) then some (Int.ofNat (digitsToNat (pyStrip s))) else none
    | .vNone => none
  else none

def lastSlNoScan (mn : Sheet) (slCol : Nat) (acc : Option Int) : List Nat → Option Int
  | [] => acc
  | r :: rest =>
    if isNextSectionHeader (mn.cell r 1).value then acc
    else
      match slNoValue? (mn.cell r slCol).value with
      | some v => lastSlNoScan mn slCol (some v) rest
      | none => lastSlNoScan mn slCol acc rest

/-- Step 4 of rule 18: the last serial value in the SI.no column, scanning
rows `slHeaderRow+1 .. min(slHeaderRow+999, maxRow)` and stopping at the next
section header. -/
def lastSlNo (mn : Sheet) (slHeaderRow slCol : Nat) : Option Int :=
  lastSlNoScan mn slCol none
    (List.range' (slHeaderRow + 1) (min (slHeaderRow + 999) mn.maxRow - slHeaderRow))

/-- Step 6 of rule 18: the header row of the "Is Data" column (fixed column
AF = 32), searching rows `1..49`. -/
def findIsDataRow (cb : Sheet) : Option Nat :=
  (List.range' 1 49).find? (fun r => truthyStrContains (cb.cell r 32).value "Is Data")

/-- Step 7 of rule 18: the "Part Number" column in the Is Data header row. -/
def findPartNumberCol (cb : Sheet) (isDataRow : Nat) : Option Nat :=
  (List.range' 1 49).find? (fun c =>
    match truthyStr? (cb.cell isDataRow c).value with
    | some s => decide (pyStrip s = "Part Number")
    | none => false)

/-- The Is Data "False" test: boolean `False`, or a string equal to "FALSE"
after uppercasing. -/
def isFalseFlag (v : Value) : Bool :=
  decide (v = Value.vBool false) ||
    (match strValue? v with
     | some s => decide (pyUpper s = "FALSE")
     | none => false)

/-- Step 8 of rule 18: the stripped part numbers of rows below the header row
whose Is Data flag is false and whose part number is truthy. -/
def falsePartsList (cb : Sheet) (isDataRow pnCol : Nat) : List String :=
  (List.range' (isDataRow + 1) (cb.maxRow - isDataRow)).filterMap (fun r =>
    if isFalseFlag (cb.cell r 32).value ∧ pyTruthy (cb.cell r pnCol).value then
      some (pyStrip (pyStr (cb.cell r pnCol).value))
    else none)

/-- The number of distinct flagged part numbers (Python set size). -/
def cbomFalseCount (cb : Sheet) (isDataRow pnCol : Nat) : Nat :=
  (falsePartsList cb isDataRow pnCol).dedup.length

def r18Location (uncostedHeader : String) : String :=
  uncostedHeader ++ ", Is Data, Part Number"

/-- `validate_rule18_uncosted_parts_count`. -/
def validate_rule18_uncosted_parts_count (wb : Workbook) : List ValidationResult :=
  match lookupSheet wb "Missing Notes" with
  | none =>
    [⟨rule18Name, "Missing Notes", "FAIL", "Sheet \x27Missing Notes\x27 should exist",
      "Sheet not found", "#. Uncosted Parts, Is Data, Part Number"⟩]
  | some mn =>
    match findUncostedRow mn with
    | none =>
      [⟨rule18Name, "Missing Notes", "FAIL", "\x27#. Uncosted Parts\x27 section should exist",
        "\x27Uncosted Parts\x27 section not found", "#. Uncosted Parts, Is Data, Part Number"⟩]
    | some (uncostedRow, uncostedHeader) =>
      match findSlNo mn uncostedRow with
      | none =>
        [⟨rule18Name, "Missing Notes", "FAIL",
          "\x27SI.no\x27 sub-header should exist under \x27#. Uncosted Parts\x27",
          "\x27SI.no\x27 sub-header not found", r18Location uncostedHeader⟩]
      | some (slCol, slHeaderRow) =>
        match lastSlNo mn slHeaderRow slCol with
        | none =>
          [⟨rule18Name, "Missing Notes", "FAIL",
            "At least one SI.no value under \x27#. Uncosted Parts\x27",
            "No SI.no values found", r18Location uncostedHeader⟩]
        | some lastN =>
          match lastCbom wb with
          | none =>
            [⟨rule18Name, "N/A", "FAIL",
              "At least one \x277.0 CBOM VL-\x7bX\x7d\x27 sheet should exist",
              "No CBOM VL sheets found", r18Location uncostedHeader⟩]
          | some pr =>
            let cb := (lookupSheet wb pr.2).getD emptySheet
            match findIsDataRow cb with
            | none =>
              [⟨rule18Name, pr.2, "FAIL", "\x27Is Data\x27 column should exist in column AF",
                "\x27Is Data\x27 column not found", r18Location uncostedHeader⟩]
            | some isDataRow =>
              match findPartNumberCol cb isDataRow with
              | none =>
                [⟨rule18Name, pr.2, "FAIL", "\x27Part Number\x27 column should exist",
                  "\x27Part Number\x27 column not found", r18Location uncostedHeader⟩]
              | some pnCol =>
                let cnt := cbomFalseCount cb isDataRow pnCol
                if lastN = (cnt : Int) then
                  [⟨rule18Name, "Missing Notes, " ++ pr.2, "PASS",
                    "Part count matching between Missing Notes and " ++ pr.2,
                    "Part count is matching for uncosted part", r18Location uncostedHeader⟩]
                else
                  [⟨rule18Name, "Missing Notes, " ++ pr.2, "FAIL",
                    "Last SI.no (" ++ toString lastN ++
                      ") should match unique Part Number count with Is Data=False (" ++
                      toString cnt ++ ")",
                    "Part count is not matching for uncosted part (SI.no: " ++ toString lastN ++
                      ", Is Data=False count: " ++ toString cnt ++ ")",
                    r18Location uncostedHeader⟩]

/-- Python `==` between a raw cell value and the int `n`. -/
def pyEqNat (v : Value) (n : Nat) : Bool :=
  match v with
  | .vInt m => decide (m = (n : Int))
  | .vBool b => decide ((if b then 1 else 0) = n)
  | _ => false

/-- Rule 19 step 2: for a header column, the value beside the first
"Grand Total" row among rows `2..99` (dropped when that value is None). -/
def grandTotalValue? (lt : Sheet) (col : Nat) : Option Value :=
  match (List.range' 2 98).find? (fun r => truthyStrContains (lt.cell r col).value "Grand Total") with
  | some r =>
    match (lt.cell r (col + 1)).value with
    | Value.vNone => none
    | v => some v
  | none => none

/-- Rule 19 step 1-2: the (FG key, declared Grand Total value) pairs read from
the `LT in weeks -` headers of row 1, columns `1..49`. -/
def fgParts (lt : Sheet) : List (String × Value) :=
  (List.range' 1 49).filterMap (fun col =>
    match truthyStr? (lt.cell 1 col).value with
    | some s =>
      if strContains s "LT in weeks -" then
        (grandTotalValue? lt col).map (fun v => (pyStrip (pyReplace s "LT in weeks -" ""), v))
      else none
    | none => none)

/-- Rule 19 step 4: rows `1..1999` whose column A equals "FG part number". -/
def fgSections (cb : Sheet) : List Nat :=
  (List.range' 1 1999).filter (fun r =>
    match truthyStr? (cb.cell r 1).value with
    | some s => decide (s = "FG part number")
    | none => false)

/-- Rule 19 step 5 inner loop: below one section row, collect stripped column C
part numbers of rows whose column A equals the FG key, stopping at an empty
column A cell (at most 999 rows per section). -/
def scanSectionRows (cb : Sheet) (fgPart : String) : Nat → Nat → List String
  | 0, _ => []
  | fuel + 1, row =>
    let fgv := (cb.cell row 1).value
    if fgv = Value.vNone ∨ pyStrip (pyStr fgv) = "" then []
    else
      let rest := scanSectionRows cb fgPart fuel (row + 1)
      if pyStrip (pyStr fgv) = fgPart ∧ pyTruthy (cb.cell row 3).value then
        pyStrip (pyStr (cb.cell row 3).value) :: rest
      else rest

def fgUniqueParts (cb : Sheet) (fgPart : String) : List String :=
  ((fgSections cb).map (fun sec => scanSectionRows cb fgPart 999 (sec + 1))).flatten

/-- Rule 19 step 6: the number of distinct part numbers under the FG key. -/
def fgDerivedCount (cb : Sheet) (fgPart : String) : Nat :=
  (fgUniqueParts cb fgPart).dedup.length

def rule19Name : String := "Rule 19: CPN count is not matching"

/-- Rule 19 step 7: the per-FG verdict record for a key `fg` with declared
Grand Total value `ev`. -/
def fgRecord (cb : Sheet) (lastCbomName : String) (fg : String) (ev : Value) : ValidationResult :=
  if pyEqNat ev (fgDerivedCount cb fg) then
    ⟨rule19Name, "Lead Time (FG Wise)", "PASS",
      "Count " ++ pyStr ev ++ " for FG " ++ fg,
      fg ++ ": " ++ pyStr ev ++ " == " ++ toString (fgDerivedCount cb fg) ++ " PASS",
      "Lead Time vs " ++ lastCbomName⟩
  else if fgDerivedCount cb fg = 0 then
    ⟨rule19Name, "Lead Time (FG Wise)", "FAIL",
      "Count " ++ pyStr ev ++ " for FG " ++ fg,
      fg ++ ": Not found in CBOM",
      "Lead Time vs " ++ lastCbomName⟩
  else
    ⟨rule19Name, "Lead Time (FG Wise)", "FAIL",
      "Count " ++ pyStr ev ++ " for FG " ++ fg,
      fg ++ ": " ++ pyStr ev ++ " != " ++ toString (fgDerivedCount cb fg) ++ " FAIL",
      "Lead Time vs " ++ lastCbomName⟩

/-- `validate_rule19_bom_matrix_validation`. -/
def validate_rule19_bom_matrix_validation (wb : Workbook) : List ValidationResult :=
  match lookupSheet wb "Lead Time (FG Wise)" with
  | none =>
    [⟨rule19Name, "Lead Time (FG Wise)", "FAIL",
      "Sheet \x27Lead Time (FG Wise)\x27 should exist", "Sheet not found", ""⟩]
  | some lt =>
    if fgParts lt = [] then
      [⟨rule19Name, "Lead Time (FG Wise)", "FAIL",
        "At least one \x27LT in weeks - #\x27 header with Grand Total",
        "No FG parts with Grand Total found", ""⟩]
    else
      match lastCbom wb with
      | none =>
        [⟨rule19Name, "N/A", "FAIL",
          "At least one \x277.0 CBOM VL-\x7bX\x7d\x27 sheet should exist",
          "No CBOM VL sheets found", ""⟩]
      | some pr =>
        let cb := (lookupSheet wb pr.2).getD emptySheet
        if fgSections cb = [] then
          [⟨rule19Name, pr.2, "FAIL", "\x27FG part number\x27 headers in Column A",
            "No \x27FG part number\x27 headers found", ""⟩]
        else
          (fgParts lt).map (fun p => fgRecord cb pr.2 p.1 p.2)

def rule3Name : String := "Rule 3: Currency Symbol Validation (CBOM)"

def rule3Headers (sheetNumber : String) : List String :=
  ["Ext Price #" ++ sheetNumber ++ " (Conv.)",
   "Ext Part Vol Price #" ++ sheetNumber ++ " (Conv.)"]

/-- The inner column loop of the rule 3 header search: the leftmost column of
`1..50` whose cell value equals the header (Python `cell.value ==
expected_header` with a `break` at the first hit). -/
def rule3RowHit (sh : Sheet) (header : String) (row : Nat) : Option (Nat × Nat) :=
  ((List.range' 1 50).find? (fun c => decide ((sh.cell row c).value = Value.vStr header))).map
    (fun c => (row, c))

/-- The outer row loop of the rule 3 header search, rows in ascending order. -/
def findRowFrom (sh : Sheet) (header : String) : List Nat → Option (Nat × Nat)
  | [] => none
  | r :: rest =>
    match rule3RowHit sh header r with
    | some rc => some rc
    | none => findRowFrom sh header rest

/-- The rule 3 header search: rows `1..15`, columns `1..50`; the first matching
row (lowest row number) wins, and within it the leftmost matching column. -/
def findHeaderRule3 (sh : Sheet) (header : String) : Option (Nat × Nat) :=
  findRowFrom sh header (List.range' 1 15)

/-- The rows of the rule 3 search window holding at least one occurrence of
the header. -/
def rule3OccRows (sh : Sheet) (header : String) : List Nat :=
  (List.range' 1 15).filter (fun r =>
    (List.range' 1 50).any (fun c => decide ((sh.cell r c).value = Value.vStr header)))

/-- `r` is at most every row of the window holding an occurrence of the
header. -/
def rule3MinRowOk (sh : Sheet) (header : String) (r : Nat) : Bool :=
  (rule3OccRows sh header).all (fun r2 => decide (r ≤ r2))

/-- Currency evidence in the rows directly below a header cell:
rows `r+1 .. min(r+9, maxRow)`. -/
def currencyBelow (sh : Sheet) (r c : Nat) : Bool :=
  (List.range' (r + 1) (min (r + 9) sh.maxRow - r)).any
    (fun vr => hasCurrencyFormatOrSymbol (sh.cell vr c))

/-- Currency evidence in the rows directly above a header cell:
rows `max(1, r-5) .. r-1`, only when `r > 1`. -/
def currencyAbove (sh : Sheet) (r c : Nat) : Bool :=
  if 1 < r then
    (List.range' (max 1 (r - 5)) (r - max 1 (r - 5))).any
      (fun vr => hasCurrencyFormatOrSymbol (sh.cell vr c))
  else false

/-- Below first, then above if nothing was found below. -/
def currencyNear (sh : Sheet) (r c : Nat) : Bool :=
  currencyBelow sh r c || currencyAbove sh r c

inductive HeaderCheck where
  | missing
  | noCurrency
  | ok
  deriving DecidableEq

/-- Rule 3 classification for one required header of one sheet. -/
def rule3HeaderCheck (sh : Sheet) (header : String) : HeaderCheck :=
  match findHeaderRule3 sh header with
  | none => HeaderCheck.missing
  | some rc => if currencyNear sh rc.1 rc.2 then HeaderCheck.ok else HeaderCheck.noCurrency

/-- The rule 3 record for one matching sheet. -/
def rule3SheetRecord (sheetName : String) (sh : Sheet) (sheetNumber : String) : ValidationResult :=
  let headers := rule3Headers sheetNumber
  let missingHeaders := headers.filter (fun h => rule3HeaderCheck sh h = HeaderCheck.missing)
  let invalidFormats := headers.filter (fun h => rule3HeaderCheck sh h = HeaderCheck.noCurrency)
  if missingHeaders ≠ [] then
    ⟨rule3Name, sheetName, "FAIL",
      "Headers for sheet number #" ++ sheetNumber ++ " with currency-formatted values",
      "Missing headers: " ++ strJoin ", " missingHeaders, ""⟩
  else if invalidFormats ≠ [] then
    ⟨rule3Name, sheetName, "FAIL",
      "Values with currency symbols ($, €, £, etc.)",
      "No currency format in: " ++ strJoin ", " invalidFormats, ""⟩
  else
    ⟨rule3Name, sheetName, "PASS",
      "Currency symbols in Ext Price #" ++ sheetNumber ++ " and Ext Part Vol Price #" ++ sheetNumber,
      "Currency symbol present", ""⟩

/-- `validate_rule3_currency_symbols_cbom`. -/
def validate_rule3_currency_symbols_cbom (wb : Workbook) : List ValidationResult :=
  let matching := wb.filterMap (fun e => (cbomSuffixStr? e.1).map (fun num => (e.1, e.2, num)))
  if matching = [] then
    [⟨rule3Name, "N/A", "FAIL", "Sheets matching pattern \x277.0 CBOM VL-\x7bX\x7d\x27",
      "No matching sheets found", ""⟩]
  else
    matching.map (fun t => rule3SheetRecord t.1 t.2.1 t.2.2)

def rule5Name : String := "Rule 5: Currency Symbol Validation (Ex Inv)"

def rule5Headers (num : String) : List String :=
  ["Excess Cost #" ++ num,
   "Cost #" ++ num,
   "Ext Vol Cost (Splits) #" ++ num,
   "Excess Cost #" ++ num ++ " -B" ++ num,
   "Buy value after -B" ++ num,
   "Net Excess Cost #" ++ num]

/-- The rule 5 header search: rows `1..50`, columns `1..50`, first row-major
truthy string cell equal to the header. -/
def findHeaderRule5 (sh : Sheet) (header : String) : Option (Nat × Nat) :=
  (List.range' 1 50).findSome? (fun r =>
    ((List.range' 1 50).find? (fun c =>
      match truthyStr? (sh.cell r c).value with
      | some s => decide (s = header)
      | none => false)).map (fun c => (r, c)))

/-- The rule 5 problem list for one sheet: one entry per required header that
is absent ("not found") or present without nearby currency evidence
("missing currency"). -/
def rule5Details (sh : Sheet) (num : String) : List String :=
  (rule5Headers num).filterMap (fun h =>
    match findHeaderRule5 sh h with
    | none => some ("\x27" ++ h ++ "\x27 not found")
    | some rc =>
      if currencyNear sh rc.1 rc.2 then none
      else some ("\x27" ++ h ++ "\x27 missing currency"))

/-- The test `any("not found" in detail for detail in validation_details)`. -/
def rule5HasNotFound (sh : Sheet) (num : String) : Bool :=
  (rule5Details sh num).any (fun d => strContains d "not found")

/-- The rule 5 record for one matching sheet: note the status of the branch
with problems is PASS only when some problem is a "not found" and there are at
most two problems. -/
def rule5SheetRecord (sheetName : String) (sh : Sheet) (num : String) : ValidationResult :=
  if rule5Details sh num ≠ [] then
    if rule5HasNotFound sh num then
      ⟨rule5Name, sheetName, if (rule5Details sh num).length ≤ 2 then "PASS" else "FAIL",
        "Currency symbols in price columns for sheet #" ++ num,
        strJoin "; " (rule5Details sh num), ""⟩
    else
      ⟨rule5Name, sheetName, "FAIL",
        "Currency symbols in all price columns for #" ++ num,
        strJoin "; " (rule5Details sh num), ""⟩
  else
    ⟨rule5Name, sheetName, "PASS",
      "Currency symbols present in price columns for #" ++ num,
      "Currency symbol present", ""⟩

/-- Sheet-name parse for the anchored pattern `Ex Inv VL-(digits)`. -/
def exInvSuffixStr? (name : String) : Option String :=
  if strStartsWith name "Ex Inv VL-" then
    let rest := strDropChars name 10
    if pyIsDigit rest then some rest else none
  else none

/-- `validate_rule5_currency_symbols_ex_inv`. -/
def validate_rule5_currency_symbols_ex_inv (wb : Workbook) : List ValidationResult :=
  let matching := wb.filterMap (fun e => (exInvSuffixStr? e.1).map (fun num => (e.1, e.2, num)))
  if matching = [] then
    [⟨rule5Name, "N/A", "FAIL", "Sheets matching pattern \x27Ex Inv VL-\x7bX\x7d\x27",
      "No matching sheets found", ""⟩]
  else
    matching.map (fun t => rule5SheetRecord t.1 t.2.1 t.2.2)

namespace QuoteWin

/-- Row 17 of the template: the main header row of the active sheet. -/
def headerRowNum : Nat := 17

/-- Row 18 of the template: the first data row. -/
def dataStartRow : Nat := 18

/-- The (column, value) pairs of the main header row,
columns `1..maxCol` (`enumerate(headers, 1)`). -/
def headerCells (sh : Sheet) : List (Nat × Value) :=
  (List.range' 1 sh.maxCol).map (fun c => (c, (sh.cell headerRowNum c).value))

/-- The award number captured from a truthy header matching the anchored
pattern `Award #(digits)` after stripping. -/
def awardNum? (v : Value) : Option String :=
  if pyTruthy v then
    let s := pyStrip (pyStr v)
    if strStartsWith s "Award #" ∧ pyIsDigit (strDropChars s 7) then some (strDropChars s 7)
    else none
  else none

/-- Python dict assignment `d[key] = col`: overwrite in place or append. -/
def upsert (key : String) (col : Nat) : List (String × Nat) → List (String × Nat)
  | [] => [(key, col)]
  | e :: rest => if e.1 = key then (key, col) :: rest else e :: upsert key col rest

/-- `award_columns`: award number string → column, in insertion order. -/
def awardColumns (sh : Sheet) : List (String × Nat) :=
  (headerCells sh).foldl (fun acc p =>
    match awardNum? p.2 with
    | some num => upsert num p.1 acc
    | none => acc) []

def insertByNum (x : String × Nat) : List (String × Nat) → List (String × Nat)
  | [] => [x]
  | y :: ys => if digitsToNat x.1 < digitsToNat y.1 then x :: y :: ys else y :: insertByNum x ys

/-- `sorted(award_columns.items(), key=lambda x: int(x[0]))` (stable). -/
def sortAwardColumns (l : List (String × Nat)) : List (String × Nat) :=
  l.foldl (fun acc x => insertByNum x acc) []

/-- The first header-row column whose truthy value strips to "Part Number". -/
def partNumberCol (sh : Sheet) : Option Nat :=
  ((headerCells sh).find? (fun p =>
    pyTruthy p.2 && decide (pyStrip (pyStr p.2) = "Part Number"))).map (fun p => p.1)

/-- Python dict-of-lists update `part_number_rows[key].append(row)`. -/
def addRow (key : String) (row : Nat) : List (String × List Nat) → List (String × List Nat)
  | [] => [(key, [row])]
  | e :: rest => if e.1 = key then (e.1, e.2 ++ [row]) :: rest else e :: addRow key row rest

/-- One step of the part-number grouping loop: a non-None value with nonblank
strip is appended to its group. -/
def pnStep (sh : Sheet) (pnCol : Nat) (acc : List (String × List Nat)) (r : Nat) :
    List (String × List Nat) :=
  if (sh.cell r pnCol).value ≠ Value.vNone ∧ pyStrip (pyStr (sh.cell r pnCol).value) ≠ "" then
    addRow (pyStrip (pyStr (sh.cell r pnCol).value)) r acc
  else acc

/-- `part_number_rows`: data rows `18..maxRow` grouped by stripped part number
(non-None, nonblank), keys in first-appearance order. -/
def partNumberRows (sh : Sheet) (pnCol : Nat) : List (String × List Nat) :=
  (List.range' dataStartRow (sh.maxRow + 1 - dataStartRow)).foldl (pnStep sh pnCol) []

/-- The award-cell test: numeric 100 or a string stripping to "100" (a bool is
a Python int but neither True nor False equals 100). -/
def pyIs100 (v : Value) : Bool :=
  match v with
  | .vInt n => decide (n = 100)
  | .vStr s => decide (pyStrip s = "100")
  | .vBool _ => false
  | .vNone => false

/-- `rows_with_award`: the rows of one part number whose award cell is 100. -/
def rowsWithAward (sh : Sheet) (col : Nat) (rows : List Nat) : List Nat :=
  rows.filter (fun r => pyIs100 (sh.cell r col).value)

def awardCount (sh : Sheet) (col : Nat) (rows : List Nat) : Nat :=
  (rowsWithAward sh col rows).length

structure ColumnResult where
  no_award_parts : List String
  multiple_award_parts : List String
  deriving DecidableEq

/-- The two defect lists of one award column, in part-number group order. -/
def columnResult (sh : Sheet) (groups : List (String × List Nat)) (col : Nat) : ColumnResult :=
  ⟨(groups.filter (fun g => awardCount sh col g.2 = 0)).map Prod.fst,
   (groups.filter (fun g => 1 < awardCount sh col g.2)).map Prod.fst⟩

/-- `column_issues` for one award column: the number of defects,
`len(no_award_parts) + len(multiple_award_parts)`. -/
def columnDefectCount (sh : Sheet) (groups : List (String × List Nat)) (col : Nat) : Nat :=
  (columnResult sh groups col).no_award_parts.length +
    (columnResult sh groups col).multiple_award_parts.length

/-- The issue messages appended while validating one award column. -/
def columnIssues (sh : Sheet) (groups : List (String × List Nat)) (num : String) (col : Nat) :
    List String :=
  groups.filterMap (fun g =>
    let cnt := awardCount sh col g.2
    if cnt = 0 then
      some ("Award #" ++ num ++ " is not present for Part Number: " ++ g.1)
    else if 1 < cnt then
      some ("Multiple Awards (100) found in Award #" ++ num ++ " for Part Number: " ++ g.1 ++
        " at rows: " ++ strJoin ", " ((rowsWithAward sh col g.2).map toString))
    else none)

/-- The `validation_results['award_validation']` entry. -/
structure AwardValidation where
  passed : Bool
  message : Option String
  issues : List String
  award_column_results : List (String × ColumnResult)
  deriving DecidableEq

/-- The state before `validate_awards` runs (from `__init__`). -/
def initAwardValidation : AwardValidation := ⟨true, Option.none, [], []⟩

/-- `validate_awards`: early return (no issue, `passed` untouched) when no
Award column or no Part Number column exists in the header row; otherwise one
defect-list pair per award column, `passed` iff the total issue count is 0. -/
def validate_awards (sh : Sheet) : AwardValidation :=
  if awardColumns sh = [] then initAwardValidation
  else
    match partNumberCol sh with
    | Option.none => initAwardValidation
    | some pnCol =>
      let cols := sortAwardColumns (awardColumns sh)
      let groups := partNumberRows sh pnCol
      let colResults := cols.map (fun c => (c.1, columnResult sh groups c.2))
      let issues := (cols.map (fun c => columnIssues sh groups c.1 c.2)).flatten
      let totalIssues := (cols.map (fun c =>
        (columnResult sh groups c.2).no_award_parts.length +
        (columnResult sh groups c.2).multiple_award_parts.length)).sum
      if 0 < totalIssues then
        ⟨false, some ("Award validation failed - " ++ toString totalIssues ++ " issues found"),
          issues, colResults⟩
      else
        ⟨true, some "Award validation passed", issues, colResults⟩

end QuoteWin

/-- A cell whose display format is a currency format but whose value is empty. -/
def currencyFormatEmptyCell : Cell := ⟨Value.vNone, "$#,##0.00"⟩

/-- Workbook fixture with sheets VL-1, VL-2, VL-10 of the CBOM family. -/
def wbVL : Workbook :=
  [("7.0 CBOM VL-1", emptySheet), ("7.0 CBOM VL-2", emptySheet), ("7.0 CBOM VL-10", emptySheet)]

/-- Missing Notes fixture: "1. Uncosted Parts" section with an Sl.no column
holding serials 1..7. -/
def mnFix : Sheet :=
  ⟨9, 2,
   [(1, 1, ⟨Value.vStr "1. Uncosted Parts", "General"⟩),
    (2, 1, ⟨Value.vStr "Sl.no", "General"⟩),
    (3, 1, ⟨Value.vInt 1, "General"⟩),
    (4, 1, ⟨Value.vInt 2, "General"⟩),
    (5, 1, ⟨Value.vInt 3, "General"⟩),
    (6, 1, ⟨Value.vInt 4, "General"⟩),
    (7, 1, ⟨Value.vInt 5, "General"⟩),
    (8, 1, ⟨Value.vInt 6, "General"⟩),
    (9, 1, ⟨Value.vInt 7, "General"⟩)]⟩

/-- CBOM VL-2 fixture: Is Data header in column AF, Part Number in column 3,
seven rows flagged False with distinct part numbers. -/
def cbFix : Sheet :=
  ⟨8, 32,
   [(1, 32, ⟨Value.vStr "Is Data", "General"⟩),
    (1, 3, ⟨Value.vStr "Part Number", "General"⟩),
    (2, 32, ⟨Value.vBool false, "General"⟩), (2, 3, ⟨Value.vStr "P1", "General"⟩),
    (3, 32, ⟨Value.vBool false, "General"⟩), (3, 3, ⟨Value.vStr "P2", "General"⟩),
    (4, 32, ⟨Value.vStr "FALSE", "General"⟩), (4, 3, ⟨Value.vStr "P3", "General"⟩),
    (5, 32, ⟨Value.vBool false, "General"⟩), (5, 3, ⟨Value.vStr "P4", "General"⟩),
    (6, 32, ⟨Value.vBool false, "General"⟩), (6, 3, ⟨Value.vStr "P5", "General"⟩),
    (7, 32, ⟨Value.vBool false, "General"⟩), (7, 3, ⟨Value.vStr "P6", "General"⟩),
    (8, 32, ⟨Value.vBool false, "General"⟩), (8, 3, ⟨Value.vStr "P7", "General"⟩)]⟩

def wbR18 : Workbook :=
  [("Missing Notes", mnFix), ("7.0 CBOM VL-1", emptySheet), ("7.0 CBOM VL-2", cbFix)]

/-- Lead Time (FG Wise) fixture: FGA declares Grand Total 2, FGB declares 5. -/
def ltFix : Sheet :=
  ⟨3, 4,
   [(1, 1, ⟨Value.vStr "LT in weeks - FGA", "General"⟩),
    (2, 1, ⟨Value.vStr "Grand Total", "General"⟩),
    (2, 2, ⟨Value.vInt 2, "General"⟩),
    (1, 3, ⟨Value.vStr "LT in weeks - FGB", "General"⟩),
    (2, 3, ⟨Value.vStr "Grand Total", "General"⟩),
    (2, 4, ⟨Value.vInt 5, "General"⟩)]⟩

/-- CBOM VL-1 fixture for rule 19: one FG section holding FGA twice, FGB never. -/
def cbR19 : Sheet :=
  ⟨4, 3,
   [(1, 1, ⟨Value.vStr "FG part number", "General"⟩),
    (2, 1, ⟨Value.vStr "FGA", "General"⟩), (2, 3, ⟨Value.vStr "P1", "General"⟩),
    (3, 1, ⟨Value.vStr "FGA", "General"⟩), (3, 3, ⟨Value.vStr "P2", "General"⟩)]⟩

def wbR19 : Workbook := [("Lead Time (FG Wise)", ltFix), ("7.0 CBOM VL-1", cbR19)]

/-- CBOM VL-1 fixture for rule 3: the same header at rows 2 and 5 of column 1,
with a currency value between them. -/
def shR3 : Sheet :=
  ⟨6, 2,
   [(2, 1, ⟨Value.vStr "Ext Price #1 (Conv.)", "General"⟩),
    (3, 1, ⟨Value.vStr "$5", "General"⟩),
    (5, 1, ⟨Value.vStr "Ext Price #1 (Conv.)", "General"⟩)]⟩

/-- Ex Inv VL-1 fixture: all six required headers present, five with a
currency value below, "Net Excess Cost #1" with a plain number below. -/
def shR5 : Sheet :=
  ⟨2, 6,
   [(1, 1, ⟨Value.vStr "Excess Cost #1", "General"⟩),
    (1, 2, ⟨Value.vStr "Cost #1", "General"⟩),
    (1, 3, ⟨Value.vStr "Ext Vol Cost (Splits) #1", "General"⟩),
    (1, 4, ⟨Value.vStr "Excess Cost #1 -B1", "General"⟩),
    (1, 5, ⟨Value.vStr "Buy value after -B1", "General"⟩),
    (1, 6, ⟨Value.vStr "Net Excess Cost #1", "General"⟩),
    (2, 1, ⟨Value.vStr "$1", "General"⟩),
    (2, 2, ⟨Value.vStr "$1", "General"⟩),
    (2, 3, ⟨Value.vStr "$1", "General"⟩),
    (2, 4, ⟨Value.vStr "$1", "General"⟩),
    (2, 5, ⟨Value.vStr "$1", "General"⟩),
    (2, 6, ⟨Value.vStr "100", "General"⟩)]⟩

def wbR5 : Workbook := [("Ex Inv VL-1", shR5)]

/-- Missing Notes fixture for rule 16 with serials 1, 2, 3. -/
def mnR16 : Sheet :=
  ⟨3, 1,
   [(1, 1, ⟨Value.vStr "1. Uncosted Parts", "General"⟩),
    (2, 1, ⟨Value.vStr "2. NCNR Mentioned", "General"⟩),
    (3, 1, ⟨Value.vStr "3. Quoted MPN", "General"⟩)]⟩

def wbR16 : Workbook := [("Missing Notes", mnR16)]

/-- Quote Win active-sheet fixture: header row 17 holds Part Number and
Award #1; data rows give part A one 100-row, part B none, part C two. -/
def shQW : Sheet :=
  ⟨21, 2,
   [(17, 1, ⟨Value.vStr "Part Number", "General"⟩),
    (17, 2, ⟨Value.vStr "Award #1", "General"⟩),
    (18, 1, ⟨Value.vStr "A", "General"⟩), (18, 2, ⟨Value.vInt 100, "General"⟩),
    (19, 1, ⟨Value.vStr "B", "General"⟩), (19, 2, ⟨Value.vInt 50, "General"⟩),
    (20, 1, ⟨Value.vStr "C", "General"⟩), (20, 2, ⟨Value.vInt 100, "General"⟩),
    (21, 1, ⟨Value.vStr "C", "General"⟩), (21, 2, ⟨Value.vStr "100", "General"⟩)]⟩

/-- Quote Win sheet with a Part Number header but no Award column. -/
def shQWNoAward : Sheet :=
  ⟨18, 1, [(17, 1, ⟨Value.vStr "Part Number", "General"⟩),
           (18, 1, ⟨Value.vStr "A", "General"⟩)]⟩

example : hasCurrencyFormatOrSymbol ⟨Value.vNone, "$#,##0.00"⟩ = true := by decide

example : lastCbom wbVL = some (10, "7.0 CBOM VL-10") := by decide

example : statusList (validate_rule19_bom_matrix_validation wbR19) = ["PASS", "FAIL"] := by decide

example : findHeaderRule3 shR3 "Ext Price #1 (Conv.)" = some (2, 1) := by decide

example : statusList (validate_rule5_currency_symbols_ex_inv wbR5) = ["FAIL"] := by decide

example : (rule5Details shR5 "1").length = 1 := by decide

example : QuoteWin.awardColumns shQW = [("1", 2)] := by decide

example : QuoteWin.partNumberCol shQW = some 1 := by decide

example : QuoteWin.partNumberRows shQW 1 = [("A", [18]), ("B", [19]), ("C", [20, 21])] := by decide

example : QuoteWin.columnResult shQW (QuoteWin.partNumberRows shQW 1) 2 = ⟨["B"], ["C"]⟩ := by decide

example : QuoteWin.validate_awards shQWNoAward = QuoteWin.initAwardValidation := by decide

example : statusList (validate_rule11_cbom_proto_sheet []) = ["PASS"] := by decide

example : hasCurrencyFormatOrSymbol ⟨Value.vStr "100", "General"⟩ = false := by decide

example : hasCurrencyFormatOrSymbol ⟨Value.vStr "$100", "General"⟩ = true := by decide

example : pyStrip "  a b  " = "a b" := by decide

example : pyUpper "Sl.no" = "SL.NO" := by decide

example : pyReplace "LT in weeks - FGA" "LT in weeks -" "" = " FGA" := by decide

example : strContains "1. Uncosted Parts" "Uncosted Parts" = true := by decide

example : strJoin "; " ["a", "b", "c"] = "a; b; c" := by decide

example : digitsToNat "10" = 10 := by decide

/-- Claim C1 as stated is false: a cell whose display format contains a
currency symbol but whose value is empty (None) makes
`_has_currency_format_or_symbol` return `true`, not `false` — the format
check alone suffices. -/
theorem C1_counterexample :
    currencyFormatEmptyCell.value = Value.vNone ∧
    formatHasCurrencySymbol currencyFormatEmptyCell = true ∧
    hasCurrencyFormatOrSymbol currencyFormatEmptyCell = true := by
  decide

/-- Claim C1, amended: for every cell whose (nonempty) display format contains
a currency symbol, `_has_currency_format_or_symbol` returns `true` regardless
of the value — a currency-looking format with no value still counts as
currency evidence. -/
theorem C1_format_alone_is_currency_evidence (c : Cell)
    (hne : c.numberFormat ≠ "") (hsym : formatHasCurrencySymbol c = true) :
    hasCurrencyFormatOrSymbol c = true := by
  unfold hasCurrencyFormatOrSymbol
  rw [if_pos ⟨hne, hsym⟩]

/-- Witness for C1: the theorem applied to the concrete currency-format,
empty-value cell. -/
theorem C1_witness : hasCurrencyFormatOrSymbol currencyFormatEmptyCell = true :=
  C1_format_alone_is_currency_evidence currencyFormatEmptyCell (by decide) (by decide)

/-- Claim C2 as stated is false: on a workbook missing the BOM MATRIX sheet,
rule 11 yields a single PASS record — not one FAIL record naming the missing
sheet. -/
theorem C2_counterexample :
    lookupSheet ([] : Workbook) "BOM MATRIX" = Option.none ∧
    statusList (validate_rule11_cbom_proto_sheet []) = ["PASS"] := by
  decide

/-- Claim C2, amended: a rule that opens with an explicit sheet-existence
check (rule 18 and its "Missing Notes" prerequisite) yields exactly one FAIL
record naming the missing sheet and no engine-level error, but the proto
presence-correlation rule 11 treats a missing BOM MATRIX as mere absence of
proto headers: it still yields exactly one record (no engine-level error),
and that record is PASS whenever the 7.0 CBOM Proto sheet is also absent. -/
theorem C2_missing_sheet_behavior (wb : Workbook)
    (h18 : lookupSheet wb "Missing Notes" = Option.none)
    (hbm : lookupSheet wb "BOM MATRIX" = Option.none)
    (hpr : lookupSheet wb "7.0 CBOM Proto" = Option.none) :
    validate_rule18_uncosted_parts_count wb =
      [⟨rule18Name, "Missing Notes", "FAIL", "Sheet \x27Missing Notes\x27 should exist",
        "Sheet not found", "#. Uncosted Parts, Is Data, Part Number"⟩] ∧
    (validate_rule11_cbom_proto_sheet wb).length = 1 ∧
    statusList (validate_rule11_cbom_proto_sheet wb) = ["PASS"] := by
  have h11 : validate_rule11_cbom_proto_sheet wb =
      [⟨rule11Name, "N/A", "PASS", "No Proto headers, no Proto sheet",
        "Proto not specified, sheet correctly absent", ""⟩] := by
    simp [validate_rule11_cbom_proto_sheet, checkProtoHeadersInBomMatrix, containsSheet,
      hbm, hpr]
  refine ⟨?_, ?_, ?_⟩
  · simp [validate_rule18_uncosted_parts_count, h18]
  · rw [h11]
    rfl
  · rw [h11]
    rfl

/-- Witness for C2: the amended theorem applied to the empty workbook. -/
theorem C2_witness :
    validate_rule18_uncosted_parts_count [] =
      [⟨rule18Name, "Missing Notes", "FAIL", "Sheet \x27Missing Notes\x27 should exist",
        "Sheet not found", "#. Uncosted Parts, Is Data, Part Number"⟩] ∧
    (validate_rule11_cbom_proto_sheet []).length = 1 ∧
    statusList (validate_rule11_cbom_proto_sheet []) = ["PASS"] :=
  C2_missing_sheet_behavior [] rfl rfl rfl

/-- Claim C9 as stated is false: on an Ex Inv VL-1 sheet where exactly one of
the six required headers has a problem — present but with no currency
evidence — rule 5 returns FAIL, although the claim promises PASS for at most
two problems. -/
theorem C9_counterexample :
    (rule5Details shR5 "1").length = 1 ∧
    rule5HasNotFound shR5 "1" = false ∧
    statusList (validate_rule5_currency_symbols_ex_inv wbR5) = ["FAIL"] := by
  decide

/-- Claim C9, amended: the rule 5 record of an Ex Inv VL sheet is PASS exactly
when there are no problems, or there are at most two problems and at least one
of them is a missing header ("not found"); when every problem is a present
header without currency evidence the record is FAIL even with at most two
problems. -/
theorem C9_rule5_pass_condition (sheetName : String) (sh : Sheet) (num : String) :
    (rule5SheetRecord sheetName sh num).status = "PASS" ↔
      (rule5Details sh num = [] ∨
       ((rule5Details sh num).length ≤ 2 ∧ rule5HasNotFound sh num = true)) := by
  unfold rule5SheetRecord
  by_cases hd : rule5Details sh num = []
  · rw [if_neg (fun hc => hc hd)]
    exact iff_of_true rfl (Or.inl hd)
  · rw [if_pos hd]
    by_cases hnf : rule5HasNotFound sh num = true
    · rw [if_pos hnf]
      by_cases hlen : (rule5Details sh num).length ≤ 2
      · rw [if_pos hlen]
        exact iff_of_true rfl (Or.inr ⟨hlen, hnf⟩)
      · rw [if_neg hlen]
        refine iff_of_false (fun hc => by simp at hc) ?_
        rintro (hc | ⟨hc, _⟩)
        · exact hd hc
        · exact hlen hc
    · rw [if_neg hnf]
      refine iff_of_false (fun hc => by simp at hc) ?_
      rintro (hc | ⟨_, hc⟩)
      · exact hd hc
      · exact hnf hc

/-- Witness for C9: the amended pass condition instantiated at the concrete
Ex Inv VL-1 sheet with a single missing-currency problem. -/
theorem C9_witness :
    (rule5SheetRecord "Ex Inv VL-1" shR5 "1").status = "PASS" ↔
      (rule5Details shR5 "1" = [] ∨
       ((rule5Details shR5 "1").length ≤ 2 ∧ rule5HasNotFound shR5 "1" = true)) :=
  C9_rule5_pass_condition "Ex Inv VL-1" shR5 "1"

theorem pairMax_eq_or (a b : Nat × String) : pairMax a b = a ∨ pairMax a b = b := by
  unfold pairMax
  by_cases h1 : a.1 < b.1
  · rw [if_pos h1]
    exact Or.inr rfl
  · rw [if_neg h1]
    by_cases h2 : b.1 < a.1
    · rw [if_pos h2]
      exact Or.inl rfl
    · rw [if_neg h2]
      by_cases h3 : a.2 < b.2
      · rw [if_pos h3]
        exact Or.inr rfl
      · rw [if_neg h3]
        exact Or.inl rfl

theorem left_le_pairMax (a b : Nat × String) : a.1 ≤ (pairMax a b).1 := by
  unfold pairMax
  by_cases h1 : a.1 < b.1
  · rw [if_pos h1]
    omega
  · rw [if_neg h1]
    by_cases h2 : b.1 < a.1
    · rw [if_pos h2]
    · rw [if_neg h2]
      by_cases h3 : a.2 < b.2
      · rw [if_pos h3]
        omega
      · rw [if_neg h3]

theorem right_le_pairMax (a b : Nat × String) : b.1 ≤ (pairMax a b).1 := by
  unfold pairMax
  by_cases h1 : a.1 < b.1
  · rw [if_pos h1]
  · rw [if_neg h1]
    by_cases h2 : b.1 < a.1
    · rw [if_pos h2]
      omega
    · rw [if_neg h2]
      by_cases h3 : a.2 < b.2
      · rw [if_pos h3]
      · rw [if_neg h3]
        omega

theorem foldl_pairMax_mem (l : List (Nat × String)) :
    ∀ (e : Nat × String), l.foldl pairMax e ∈ e :: l := by
  induction l with
  | nil => intro e; simp
  | cons x xs ih =>
    intro e
    have h := ih (pairMax e x)
    rw [List.foldl_cons]
    rcases List.mem_cons.mp h with h1 | h1
    · rcases pairMax_eq_or e x with h2 | h2
      · rw [h1, h2]
        exact List.mem_cons_self _ _
      · rw [h1, h2]
        exact List.mem_cons_of_mem _ (List.mem_cons_self _ _)
    · exact List.mem_cons_of_mem _ (List.mem_cons_of_mem _ h1)

theorem foldl_pairMax_bound (l : List (Nat × String)) :
    ∀ (e x : Nat × String), x ∈ e :: l → x.1 ≤ (l.foldl pairMax e).1 := by
  induction l with
  | nil =>
    intro e x hx
    rw [List.mem_singleton] at hx
    rw [hx]
    exact le_refl _
  | cons y ys ih =>
    intro e x hx
    rw [List.foldl_cons]
    have hy : (pairMax e y).1 ≤ (ys.foldl pairMax (pairMax e y)).1 :=
      ih (pairMax e y) (pairMax e y) (List.mem_cons_self _ _)
    rcases List.mem_cons.mp hx with h1 | h1
    · rw [h1]
      exact le_trans (left_le_pairMax e y) hy
    · rcases List.mem_cons.mp h1 with h2 | h2
      · rw [h2]
        exact le_trans (right_le_pairMax e y) hy
      · exact ih (pairMax e y) x (List.mem_cons_of_mem _ h2)

/-- Claim C7: the sheet resolved by `cbom_sheets.sort(); cbom_sheets[-1]` in
rules 18 and 19 is a member of the CBOM VL family whose number bounds every
family member's number (numeric comparison); on the workbook holding VL-1,
VL-2 and VL-10, it resolves to VL-10, not the lexicographic maximum VL-2. -/
theorem C7_lastCbom_numeric_max :
    (∀ (wb : Workbook) (n : Nat) (name : String), lastCbom wb = some (n, name) →
      (n, name) ∈ cbomEntries wb ∧ cbomMaxBound wb n = true) ∧
    lastCbom wbVL = some (10, "7.0 CBOM VL-10") := by
  constructor
  · intro wb n name h
    unfold lastCbom at h
    cases he : cbomEntries wb with
    | nil =>
      rw [he] at h
      exact absurd h (by simp)
    | cons e rest =>
      rw [he] at h
      have hfold : rest.foldl pairMax e = (n, name) := by
        simpa using h
      constructor
      · rw [← hfold]
        exact foldl_pairMax_mem rest e
      · unfold cbomMaxBound
        rw [he]
        apply List.all_eq_true.mpr
        intro x hx
        apply decide_eq_true
        have hb := foldl_pairMax_bound rest e x hx
        rw [hfold] at hb
        exact hb
  · decide

/-- Witness for C7: the maximality bound and membership at the VL-1/VL-2/VL-10
workbook, where the resolved sheet is VL-10. -/
theorem C7_witness :
    cbomMaxBound wbVL 10 = true ∧ (10, "7.0 CBOM VL-10") ∈ cbomEntries wbVL :=
  ⟨(C7_lastCbom_numeric_max.1 wbVL 10 "7.0 CBOM VL-10" C7_lastCbom_numeric_max.2).2,
   (C7_lastCbom_numeric_max.1 wbVL 10 "7.0 CBOM VL-10" C7_lastCbom_numeric_max.2).1⟩

/-- Claim C4: when every extraction step of rule 18 succeeds — Missing Notes
present, an Uncosted Parts section with an SI.no column and a last serial `n`,
a resolved last CBOM VL sheet with an Is Data column and a Part Number
column — the single record is PASS exactly when `n` equals the number of
distinct part numbers flagged Is Data = False (boolean False or a string
equal to FALSE case-insensitively), and on a mismatch the FAIL record reports
both numbers. -/
theorem C4_rule18_pass_iff (wb : Workbook) (mn : Sheet) (ur : Nat) (uh : String)
    (slc slr : Nat) (n : Int) (cnum : Nat) (cname : String) (cb : Sheet) (idr pnc : Nat)
    (hmn : lookupSheet wb "Missing Notes" = some mn)
    (hur : findUncostedRow mn = some (ur, uh))
    (hsl : findSlNo mn ur = some (slc, slr))
    (hn : lastSlNo mn slr slc = some n)
    (hlast : lastCbom wb = some (cnum, cname))
    (hcb : lookupSheet wb cname = some cb)
    (hidr : findIsDataRow cb = some idr)
    (hpnc : findPartNumberCol cb idr = some pnc) :
    (statusList (validate_rule18_uncosted_parts_count wb) = ["PASS"] ↔
      n = (cbomFalseCount cb idr pnc : Int)) ∧
    (n ≠ (cbomFalseCount cb idr pnc : Int) →
      validate_rule18_uncosted_parts_count wb =
        [⟨rule18Name, "Missing Notes, " ++ cname, "FAIL",
          "Last SI.no (" ++ toString n ++
            ") should match unique Part Number count with Is Data=False (" ++
            toString (cbomFalseCount cb idr pnc) ++ ")",
          "Part count is not matching for uncosted part (SI.no: " ++ toString n ++
            ", Is Data=False count: " ++ toString (cbomFalseCount cb idr pnc) ++ ")",
          r18Location uh⟩]) := by
  by_cases heq : n = (cbomFalseCount cb idr pnc : Int)
  · have hv : statusList (validate_rule18_uncosted_parts_count wb) = ["PASS"] := by
      simp only [validate_rule18_uncosted_parts_count, hmn, hur, hsl, hn, hlast, hcb,
        Option.getD_some, hidr, hpnc]
      rw [if_pos heq]
      rfl
    exact ⟨⟨fun _ => heq, fun _ => hv⟩, fun hcon => absurd heq hcon⟩
  · have hv : validate_rule18_uncosted_parts_count wb =
        [⟨rule18Name, "Missing Notes, " ++ cname, "FAIL",
          "Last SI.no (" ++ toString n ++
            ") should match unique Part Number count with Is Data=False (" ++
            toString (cbomFalseCount cb idr pnc) ++ ")",
          "Part count is not matching for uncosted part (SI.no: " ++ toString n ++
            ", Is Data=False count: " ++ toString (cbomFalseCount cb idr pnc) ++ ")",
          r18Location uh⟩] := by
      simp only [validate_rule18_uncosted_parts_count, hmn, hur, hsl, hn, hlast, hcb,
        Option.getD_some, hidr, hpnc]
      rw [if_neg heq]
    refine ⟨⟨fun hstat => ?_, fun hcon => absurd hcon heq⟩, fun _ => hv⟩
    rw [hv] at hstat
    simp [statusList] at hstat

/-- Witness for C4: the rule 18 fixture workbook, last serial 7 versus 7
distinct flagged part numbers, yields PASS. -/
theorem C4_witness :
    statusList (validate_rule18_uncosted_parts_count wbR18) = ["PASS"] :=
  (C4_rule18_pass_iff wbR18 mnFix 1 "1. Uncosted Parts" 1 2 7 2 "7.0 CBOM VL-2" cbFix 1 3
    (by decide) (by decide) (by decide) (by decide) (by decide) (by decide) (by decide)
    (by decide)).1.mpr (by decide)

/-- Claim C5: when rule 19's prerequisites resolve — Lead Time sheet with FG
headers and Grand Totals, a resolved last CBOM VL sheet with FG sections — the
rule yields exactly one record per FG key; a record is PASS exactly when the
declared value equals the derived distinct count, and an FG key whose derived
count is 0 (key absent under the FG sections) with a non-matching declared
value gets a FAIL record with the distinct "Not found in CBOM" actual message
rather than a bare count mismatch. -/
theorem C5_rule19_per_fg (wb : Workbook) (lt : Sheet) (cnum : Nat) (cname : String) (cb : Sheet)
    (hlt : lookupSheet wb "Lead Time (FG Wise)" = some lt)
    (hfg : fgParts lt ≠ [])
    (hlast : lastCbom wb = some (cnum, cname))
    (hcb : lookupSheet wb cname = some cb)
    (hsec : fgSections cb ≠ []) :
    validate_rule19_bom_matrix_validation wb =
      (fgParts lt).map (fun p => fgRecord cb cname p.1 p.2) ∧
    (validate_rule19_bom_matrix_validation wb).length = (fgParts lt).length ∧
    (∀ (fg : String) (ev : Value), (fg, ev) ∈ fgParts lt →
      ((fgRecord cb cname fg ev).status = "PASS" ↔
        pyEqNat ev (fgDerivedCount cb fg) = true) ∧
      (pyEqNat ev (fgDerivedCount cb fg) = false → fgDerivedCount cb fg = 0 →
        (fgRecord cb cname fg ev).status = "FAIL" ∧
        (fgRecord cb cname fg ev).actual = fg ++ ": Not found in CBOM")) := by
  have hmain : validate_rule19_bom_matrix_validation wb =
      (fgParts lt).map (fun p => fgRecord cb cname p.1 p.2) := by
    simp only [validate_rule19_bom_matrix_validation, hlt, hlast, hcb, Option.getD_some]
    rw [if_neg hfg, if_neg hsec]
  refine ⟨hmain, by rw [hmain, List.length_map], ?_⟩
  intro fg ev _
  by_cases heq : pyEqNat ev (fgDerivedCount cb fg) = true
  · constructor
    · unfold fgRecord
      rw [if_pos heq]
      exact iff_of_true rfl heq
    · intro hf
      rw [hf] at heq
      exact absurd heq (by decide)
  · constructor
    · unfold fgRecord
      rw [if_neg heq]
      by_cases h0 : fgDerivedCount cb fg = 0
      · rw [if_pos h0]
        exact iff_of_false (fun hc => by simp at hc) heq
      · rw [if_neg h0]
        exact iff_of_false (fun hc => by simp at hc) heq
    · intro _ h0
      unfold fgRecord
      rw [if_neg heq, if_pos h0]
      exact ⟨rfl, rfl⟩

/-- Witness for C5: on the rule 19 fixture, FGB (declared 5, absent in the
CBOM sheet) gets the "Not found in CBOM" FAIL record, and the rule yields one
record per FG key. -/
theorem C5_witness :
    ((fgRecord cbR19 "7.0 CBOM VL-1" "FGB" (Value.vInt 5)).status = "FAIL" ∧
     (fgRecord cbR19 "7.0 CBOM VL-1" "FGB" (Value.vInt 5)).actual = "FGB: Not found in CBOM") ∧
    (validate_rule19_bom_matrix_validation wbR19).length = (fgParts ltFix).length := by
  have T := C5_rule19_per_fg wbR19 ltFix 1 "7.0 CBOM VL-1" cbR19 (by decide) (by decide)
    (by decide) (by decide) (by decide)
  exact ⟨(T.2.2 "FGB" (Value.vInt 5) (by decide)).2 (by decide) (by decide), T.2.1⟩

theorem serials_eq_range (l : List (Nat × Nat × String)) :
    ∀ (k : Nat), (∀ p ∈ l.enumFrom k, p.2.2.1 = p.1 + 1) →
      l.map (fun x => x.2.1) = List.range' (k + 1) l.length := by
  induction l with
  | nil => intro k _; rfl
  | cons x xs ih =>
    intro k h
    have hx : x.2.1 = k + 1 := h (k, x) (List.mem_cons_self _ _)
    have hxs := ih (k + 1) (fun p hp => h p (List.mem_cons_of_mem _ hp))
    simp only [List.map_cons, List.length_cons]
    rw [hx, hxs, List.range'_succ]

theorem mismatches_nil_serials (secs : List (Nat × Nat × String))
    (h : sectionMismatches secs = []) :
    secs.map (fun x => x.2.1) = List.range' 1 secs.length := by
  apply serials_eq_range secs 0
  intro p hp
  have hf := List.filterMap_eq_nil_iff.mp h p hp
  by_contra hne
  rw [if_pos hne] at hf
  exact Option.noConfusion hf

/-- Claim C6: with a Missing Notes sheet present and at least one numbered
section found, rule 16 reports PASS exactly when the serials in row order are
1..N; otherwise the single record is the FAIL record carrying the first (up
to three) position/expected/found mismatches, a nonempty list. -/
theorem C6_rule16_sequential (wb : Workbook) (sh : Sheet)
    (hmn : lookupSheet wb "Missing Notes" = some sh)
    (hne : numberedSections sh ≠ []) :
    (statusList (validate_rule16_serial_number_standardization wb) = ["PASS"] ↔
      sectionSerials sh = List.range' 1 (sectionSerials sh).length) ∧
    (sectionSerials sh ≠ List.range' 1 (sectionSerials sh).length →
      validate_rule16_serial_number_standardization wb =
        [⟨rule16Name, "Missing Notes", "FAIL",
          "Serial numbers should be sequential (1, 2, 3, 4...)",
          "Serial number mismatch: " ++
            strJoin "; " ((sectionMismatches (numberedSections sh)).take 3), ""⟩] ∧
      sectionMismatches (numberedSections sh) ≠ []) := by
  by_cases hseq : sectionSerials sh = List.range' 1 (sectionSerials sh).length
  · have hseq2 : ((numberedSections sh).map (fun x => x.2.1)) =
        List.range' 1 ((numberedSections sh).map (fun x => x.2.1)).length := hseq
    have hv : statusList (validate_rule16_serial_number_standardization wb) = ["PASS"] := by
      simp only [validate_rule16_serial_number_standardization, hmn]
      rw [if_neg hne, if_pos hseq2]
      rfl
    exact ⟨⟨fun _ => hseq, fun _ => hv⟩, fun hcon => absurd hseq hcon⟩
  · have hseq2 : ¬(((numberedSections sh).map (fun x => x.2.1)) =
        List.range' 1 ((numberedSections sh).map (fun x => x.2.1)).length) := hseq
    have hv : validate_rule16_serial_number_standardization wb =
        [⟨rule16Name, "Missing Notes", "FAIL",
          "Serial numbers should be sequential (1, 2, 3, 4...)",
          "Serial number mismatch: " ++
            strJoin "; " ((sectionMismatches (numberedSections sh)).take 3), ""⟩] := by
      simp only [validate_rule16_serial_number_standardization, hmn]
      rw [if_neg hne, if_neg hseq2]
    refine ⟨⟨fun hstat => ?_, fun hcon => absurd hcon hseq⟩, fun _ => ⟨hv, fun hnil => ?_⟩⟩
    · rw [hv] at hstat
      simp [statusList] at hstat
    · apply hseq
      have hm := mismatches_nil_serials (numberedSections sh) hnil
      unfold sectionSerials
      rw [List.length_map, hm]

/-- Witness for C6: the Missing Notes fixture with serials 1, 2, 3 makes rule
16 PASS. -/
theorem C6_witness :
    statusList (validate_rule16_serial_number_standardization wbR16) = ["PASS"] :=
  (C6_rule16_sequential wbR16 mnR16 (by decide) (by decide)).1.mpr (by decide)

theorem mem_keys_addRow (k : String) (r : Nat) :
    ∀ (l : List (String × List Nat)) (q : String),
      q ∈ (QuoteWin.addRow k r l).map Prod.fst ↔ q ∈ l.map Prod.fst ∨ q = k := by
  intro l
  induction l with
  | nil =>
    intro q
    simp [QuoteWin.addRow]
  | cons e rest ih =>
    intro q
    by_cases he : e.1 = k
    · simp only [QuoteWin.addRow, if_pos he, List.map_cons, List.mem_cons]
      rw [he]
      tauto
    · simp only [QuoteWin.addRow, if_neg he, List.map_cons, List.mem_cons, ih]
      tauto

theorem nodup_keys_addRow (k : String) (r : Nat) :
    ∀ (l : List (String × List Nat)), (l.map Prod.fst).Nodup →
      ((QuoteWin.addRow k r l).map Prod.fst).Nodup := by
  intro l
  induction l with
  | nil =>
    intro _
    simp [QuoteWin.addRow]
  | cons e rest ih =>
    intro hnd
    rw [List.map_cons, List.nodup_cons] at hnd
    by_cases he : e.1 = k
    · simp only [QuoteWin.addRow, if_pos he, List.map_cons, List.nodup_cons]
      exact ⟨hnd.1, hnd.2⟩
    · simp only [QuoteWin.addRow, if_neg he, List.map_cons, List.nodup_cons]
      refine ⟨?_, ih hnd.2⟩
      intro hc
      rcases (mem_keys_addRow k r rest e.1).mp hc with h1 | h1
      · exact hnd.1 h1
      · exact he h1

theorem nodup_keys_pnFold (sh : Sheet) (pnCol : Nat) :
    ∀ (rows : List Nat) (acc : List (String × List Nat)),
      (acc.map Prod.fst).Nodup →
      ((rows.foldl (QuoteWin.pnStep sh pnCol) acc).map Prod.fst).Nodup := by
  intro rows
  induction rows with
  | nil =>
    intro acc h
    exact h
  | cons r rest ih =>
    intro acc h
    rw [List.foldl_cons]
    apply ih
    unfold QuoteWin.pnStep
    by_cases hc : (sh.cell r pnCol).value ≠ Value.vNone ∧
        pyStrip (pyStr (sh.cell r pnCol).value) ≠ ""
    · rw [if_pos hc]
      exact nodup_keys_addRow _ _ acc h
    · rw [if_neg hc]
      exact h

theorem nodup_keys_partNumberRows (sh : Sheet) (pnCol : Nat) :
    ((QuoteWin.partNumberRows sh pnCol).map Prod.fst).Nodup := by
  unfold QuoteWin.partNumberRows
  exact nodup_keys_pnFold sh pnCol _ [] (by simp)

theorem keys_filter_subset (f : String × List Nat → Bool) (l : List (String × List Nat))
    {q : String} (h : q ∈ (l.filter f).map Prod.fst) : q ∈ l.map Prod.fst := by
  rcases List.mem_map.mp h with ⟨a, ha, rfl⟩
  exact List.mem_map.mpr ⟨a, List.mem_of_mem_filter ha, rfl⟩

theorem mem_keys_filter (f : String × List Nat → Bool) :
    ∀ (l : List (String × List Nat)), (l.map Prod.fst).Nodup →
      ∀ (p : String) (x : List Nat), (p, x) ∈ l →
        (p ∈ (l.filter f).map Prod.fst ↔ f (p, x) = true) := by
  intro l
  induction l with
  | nil =>
    intro _ p x hm
    exact absurd hm (List.not_mem_nil _)
  | cons e rest ih =>
    intro hnd p x hm
    rw [List.map_cons, List.nodup_cons] at hnd
    rcases List.mem_cons.mp hm with h1 | h1
    · have hep : e.1 = p := by rw [← h1]
      have hex : e = (p, x) := h1.symm
      by_cases hf : f e = true
      · rw [List.filter_cons, if_pos hf, List.map_cons]
        constructor
        · intro _
          rw [hex] at hf
          exact hf
        · intro _
          exact List.mem_cons.mpr (Or.inl hep.symm)
      · rw [List.filter_cons, if_neg hf]
        constructor
        · intro hmem
          exfalso
          apply hnd.1
          rw [hep]
          exact keys_filter_subset f rest hmem
        · intro hfx
          rw [hex] at hf
          exact absurd hfx hf
    · have hpr : p ∈ rest.map Prod.fst := List.mem_map.mpr ⟨(p, x), h1, rfl⟩
      have hne : e.1 ≠ p := fun hcon => hnd.1 (hcon ▸ hpr)
      rw [List.filter_cons]
      by_cases hf : f e = true
      · rw [if_pos hf, List.map_cons, List.mem_cons]
        constructor
        · rintro (hc | hc)
          · exact absurd hc.symm hne
          · exact (ih hnd.2 p x h1).mp hc
        · intro hfx
          exact Or.inr ((ih hnd.2 p x h1).mpr hfx)
      · rw [if_neg hf]
        exact ih hnd.2 p x h1

/-- Claim C3: per `Award #N` column, a grouped part number lands in
`no_award_parts` exactly when it has zero 100-valued rows in that column, in
`multiple_award_parts` exactly when it has more than one, produces no defect
when it has exactly one, and the column's issue count is zero exactly when
both defect lists are empty. -/
theorem C3_award_column_defects (sh : Sheet) (pnCol : Nat) (num : String) (col : Nat)
    (p : String) (rows : List Nat)
    (_hpn : QuoteWin.partNumberCol sh = some pnCol)
    (_hcol : (num, col) ∈ QuoteWin.awardColumns sh)
    (hgrp : (p, rows) ∈ QuoteWin.partNumberRows sh pnCol) :
    ((p ∈ (QuoteWin.columnResult sh (QuoteWin.partNumberRows sh pnCol) col).no_award_parts ↔
        QuoteWin.awardCount sh col rows = 0) ∧
     (p ∈ (QuoteWin.columnResult sh (QuoteWin.partNumberRows sh pnCol) col).multiple_award_parts ↔
        1 < QuoteWin.awardCount sh col rows) ∧
     (QuoteWin.awardCount sh col rows = 1 →
        p ∉ (QuoteWin.columnResult sh (QuoteWin.partNumberRows sh pnCol) col).no_award_parts ∧
        p ∉ (QuoteWin.columnResult sh (QuoteWin.partNumberRows sh pnCol) col).multiple_award_parts)) ∧
    (QuoteWin.columnDefectCount sh (QuoteWin.partNumberRows sh pnCol) col = 0 ↔
      ((QuoteWin.columnResult sh (QuoteWin.partNumberRows sh pnCol) col).no_award_parts = [] ∧
       (QuoteWin.columnResult sh (QuoteWin.partNumberRows sh pnCol) col).multiple_award_parts = [])) := by
  have hnd := nodup_keys_partNumberRows sh pnCol
  have hiff0 : p ∈ (QuoteWin.columnResult sh (QuoteWin.partNumberRows sh pnCol) col).no_award_parts ↔
      QuoteWin.awardCount sh col rows = 0 := by
    simp only [QuoteWin.columnResult]
    rw [mem_keys_filter _ _ hnd p rows hgrp]
    exact decide_eq_true_iff
  have hiff1 : p ∈ (QuoteWin.columnResult sh (QuoteWin.partNumberRows sh pnCol) col).multiple_award_parts ↔
      1 < QuoteWin.awardCount sh col rows := by
    simp only [QuoteWin.columnResult]
    rw [mem_keys_filter _ _ hnd p rows hgrp]
    exact decide_eq_true_iff
  refine ⟨⟨hiff0, hiff1, fun hone => ⟨fun hc => ?_, fun hc => ?_⟩⟩, ?_⟩
  · have := hiff0.mp hc
    omega
  · have := hiff1.mp hc
    omega
  · unfold QuoteWin.columnDefectCount
    constructor
    · intro hz
      have hz2 : (QuoteWin.columnResult sh (QuoteWin.partNumberRows sh pnCol) col).no_award_parts.length = 0 ∧
          (QuoteWin.columnResult sh (QuoteWin.partNumberRows sh pnCol) col).multiple_award_parts.length = 0 := by
        omega
      exact ⟨List.length_eq_zero.mp hz2.1, List.length_eq_zero.mp hz2.2⟩
    · rintro ⟨ha, hb⟩
      rw [ha, hb]
      rfl

/-- Witness for C3: on the Quote Win fixture, part B (zero 100-rows in Award
column 2) satisfies the defect characterization. -/
theorem C3_witness :
    ((("B" ∈ (QuoteWin.columnResult shQW (QuoteWin.partNumberRows shQW 1) 2).no_award_parts ↔
        QuoteWin.awardCount shQW 2 [19] = 0) ∧
      ("B" ∈ (QuoteWin.columnResult shQW (QuoteWin.partNumberRows shQW 1) 2).multiple_award_parts ↔
        1 < QuoteWin.awardCount shQW 2 [19]) ∧
      (QuoteWin.awardCount shQW 2 [19] = 1 →
        "B" ∉ (QuoteWin.columnResult shQW (QuoteWin.partNumberRows shQW 1) 2).no_award_parts ∧
        "B" ∉ (QuoteWin.columnResult shQW (QuoteWin.partNumberRows shQW 1) 2).multiple_award_parts)) ∧
     (QuoteWin.columnDefectCount shQW (QuoteWin.partNumberRows shQW 1) 2 = 0 ↔
       ((QuoteWin.columnResult shQW (QuoteWin.partNumberRows shQW 1) 2).no_award_parts = [] ∧
        (QuoteWin.columnResult shQW (QuoteWin.partNumberRows shQW 1) 2).multiple_award_parts = []))) :=
  C3_award_column_defects shQW 1 "1" 2 "B" [19] (by decide) (by decide) (by decide)

theorem rule3RowHit_row (sh : Sheet) (header : String) (row r c : Nat)
    (h : rule3RowHit sh header row = some (r, c)) :
    r = row ∧ (sh.cell row c).value = Value.vStr header := by
  unfold rule3RowHit at h
  cases hf : (List.range' 1 50).find?
      (fun col => decide ((sh.cell row col).value = Value.vStr header)) with
  | none =>
    rw [hf] at h
    exact Option.noConfusion h
  | some c0 =>
    rw [hf] at h
    simp only [Option.map_some', Option.some.injEq, Prod.mk.injEq] at h
    obtain ⟨hr, hc⟩ := h
    have hp := List.find?_some hf
    refine ⟨hr.symm, ?_⟩
    rw [← hc]
    exact of_decide_eq_true hp

theorem rule3RowHit_none (sh : Sheet) (header : String) (row : Nat)
    (h : rule3RowHit sh header row = none) :
    ∀ c ∈ List.range' 1 50, ¬((sh.cell row c).value = Value.vStr header) := by
  intro c hc
  unfold rule3RowHit at h
  cases hf : (List.range' 1 50).find?
      (fun col => decide ((sh.cell row col).value = Value.vStr header)) with
  | some c0 =>
    rw [hf] at h
    exact Option.noConfusion h
  | none =>
    have hnone := List.find?_eq_none.mp hf c hc
    intro hcell
    exact hnone (decide_eq_true hcell)

theorem findRowFrom_min (sh : Sheet) (header : String) :
    ∀ (len a r c : Nat),
      findRowFrom sh header (List.range' a len) = some (r, c) →
      a ≤ r ∧ (sh.cell r c).value = Value.vStr header ∧
        ∀ r2, a ≤ r2 → r2 < r → rule3RowHit sh header r2 = none := by
  intro len
  induction len with
  | zero =>
    intro a r c h
    exact Option.noConfusion h
  | succ nlen ih =>
    intro a r c h
    rw [List.range'_succ] at h
    simp only [findRowFrom] at h
    cases hx : rule3RowHit sh header a with
    | some v =>
      rw [hx] at h
      have hv : v = (r, c) := by simpa using h
      obtain ⟨hr, hcell⟩ := rule3RowHit_row sh header a r c (by rw [hx, hv])
      refine ⟨by omega, by rw [hr]; exact hcell, fun r2 hle hlt => absurd hlt (by omega)⟩
    | none =>
      rw [hx] at h
      obtain ⟨h1, h2, h3⟩ := ih (a + 1) r c h
      refine ⟨by omega, h2, fun r2 hle hlt => ?_⟩
      rcases Nat.eq_or_lt_of_le hle with heq | hgt
      · rw [← heq]
        exact hx
      · exact h3 r2 (by omega) hlt

/-- Claim C8: when rule 3's header search locates a required header, the
returned location holds the header, its row is at most every row of the first
15 rows holding an occurrence of that header (the lowest-row occurrence is
canonical, later duplicates discarded), and rule 3's currency-evidence
classification for the header is computed at exactly that location. -/
theorem C8_rule3_lowest_row_canonical (sh : Sheet) (header : String) (r c : Nat)
    (h : findHeaderRule3 sh header = some (r, c)) :
    (sh.cell r c).value = Value.vStr header ∧
    rule3MinRowOk sh header r = true ∧
    rule3HeaderCheck sh header =
      (if currencyNear sh r c then HeaderCheck.ok else HeaderCheck.noCurrency) := by
  unfold findHeaderRule3 at h
  obtain ⟨h1, h2, h3⟩ := findRowFrom_min sh header 15 1 r c h
  refine ⟨h2, ?_, ?_⟩
  · unfold rule3MinRowOk
    apply List.all_eq_true.mpr
    intro r2 hr2
    apply decide_eq_true
    unfold rule3OccRows at hr2
    have hmem := List.mem_filter.mp hr2
    by_contra hlt
    push_neg at hlt
    have hrange := List.mem_range'_1.mp hmem.1
    have hnone := h3 r2 hrange.1 hlt
    obtain ⟨c2, hc2, hcell⟩ := List.any_eq_true.mp hmem.2
    exact rule3RowHit_none sh header r2 hnone c2 hc2 (of_decide_eq_true hcell)
  · unfold rule3HeaderCheck
    unfold findHeaderRule3
    rw [h]

/-- Witness for C8: on the sheet holding the header at rows 2 and 5, the
search resolves row 2 and the canonical-location properties hold there. -/
theorem C8_witness :
    (shR3.cell 2 1).value = Value.vStr "Ext Price #1 (Conv.)" ∧
    rule3MinRowOk shR3 "Ext Price #1 (Conv.)" 2 = true ∧
    rule3HeaderCheck shR3 "Ext Price #1 (Conv.)" =
      (if currencyNear shR3 2 1 then HeaderCheck.ok else HeaderCheck.noCurrency) :=
  C8_rule3_lowest_row_canonical shR3 "Ext Price #1 (Conv.)" 2 1 (by decide)

/-- Claim C10: when the main header row has no `Award #N` header or no
`Part Number` header, `validate_awards` returns early leaving the award
validation in its initial state — marked passed, with no issues recorded. -/
theorem C10_missing_columns_no_issue (sh : Sheet)
    (h : QuoteWin.awardColumns sh = [] ∨ QuoteWin.partNumberCol sh = Option.none) :
    QuoteWin.validate_awards sh = QuoteWin.initAwardValidation ∧
    (QuoteWin.validate_awards sh).passed = true ∧
    (QuoteWin.validate_awards sh).issues = [] := by
  have hmain : QuoteWin.validate_awards sh = QuoteWin.initAwardValidation := by
    unfold QuoteWin.validate_awards
    rcases h with h | h
    · rw [if_pos h]
    · by_cases hac : QuoteWin.awardColumns sh = []
      · rw [if_pos hac]
      · rw [if_neg hac, h]
  refine ⟨hmain, ?_, ?_⟩
  · rw [hmain]
    rfl
  · rw [hmain]
    rfl

/-- Witness for C10: a sheet with a Part Number header but no Award column. -/
theorem C10_witness :
    QuoteWin.validate_awards shQWNoAward = QuoteWin.initAwardValidation ∧
    (QuoteWin.validate_awards shQWNoAward).passed = true ∧
    (QuoteWin.validate_awards shQWNoAward).issues = [] :=
  C10_missing_columns_no_issue shQWNoAward (Or.inl (by decide))

end BullmTool
